import Mathlib

/-!
Shallow embedding of the real-time WebSocket subscription client
(`src/services/websocket.ts`, class `WebSocketService`) together with the
type declarations it uses (`src/types`).  Pure functions of the source are
translated to Lean functions; the stateful service is translated to an
explicit record of its private fields plus a step function over the
environment events (transport open/close/error/message, the connect
timeout, timer fires and public API calls), mirroring the single-threaded
event-loop execution model of the original.
-/

namespace BuddyWs

/-- WebSocketStatus from src/types: the ConnectionState of the service. -/
inductive WebSocketStatus
  | disconnected
  | connecting
  | connected
  | reconnecting
  | error
deriving DecidableEq, Repr

/-- WebSocketConnection from src/types: the ConnectionMeta record kept in
the private field `connectionState` of the service. -/
structure WebSocketConnection where
  isConnected : Bool
  lastHeartbeat : Nat
  reconnectCount : Nat
  url : String
deriving DecidableEq, Repr

/-- readyState of the browser WebSocket object. -/
inductive ReadyState
  | connecting
  | opened
  | closing
  | closed
deriving DecidableEq, Repr

/-- The raw transport handle: only its readyState is observable to the code. -/
structure Transport where
  readyState : ReadyState
deriving DecidableEq, Repr

/-- A JavaScript runtime value as far as the filter code observes it:
strict equality between payload fields and filter fields. -/
inductive JsValue
  | str (s : String)
  | num (n : Int)
  | boolean (b : Bool)
  | nullv
deriving DecidableEq, Repr

/-- An inbound payload as the router observes it: either not a JSON object
(string, number, null, ...) or an object, of which the filter code reads
only the four fields address, chainId, token and hash (absent = none). -/
inductive Payload
  | nonObject
  | obj (address chainId token hash : Option JsValue)
deriving DecidableEq, Repr

/-- SubscriptionFilter from src/types: all four fields optional. -/
structure SubscriptionFilter where
  address : Option String := none
  chainId : Option Int := none
  token : Option String := none
  hash : Option String := none
deriving DecidableEq, Repr

/-- Subscription from src/types: message type is a string literal type at
runtime; the callback may throw (modelled as Except). -/
structure Subscription where
  id : String
  type : String
  callback : Payload → Except String Unit
  filter : Option SubscriptionFilter

/-- WebSocketMessage from src/types. -/
structure WebSocketMessage where
  type : String
  payload : Payload
  timestamp : Nat
  id : Option String

/-- JavaScript truthiness of an optional string field (`filter.address &&`):
present and not the empty string. -/
def strTruthy : Option String → Bool
  | none => false
  | some s => s ≠ ""

/-- JavaScript truthiness of an optional number field (`filter.chainId &&`):
present and not zero. -/
def intTruthy : Option Int → Bool
  | none => false
  | some n => n ≠ 0

/-- JavaScript strict equality `p === v` between an optional payload field
(none = undefined) and a filter value; undefined equals nothing. -/
def jsStrictEq : Option JsValue → JsValue → Bool
  | none, _ => false
  | some w, v => w = v

/-- matchesFilter (websocket.ts lines 306-330): a payload that is not an
object passes every filter; otherwise each of the four fields is checked
only when the filter field is truthy, and a truthy filter field must be
strictly equal to the corresponding payload field. -/
def matchesFilter (payload : Payload) (filter : SubscriptionFilter) : Bool :=
  match payload with
  | .nonObject => true
  | .obj address chainId token hash =>
    if strTruthy filter.address ∧ ¬ jsStrictEq address (.str (filter.address.getD "")) then
      false
    else if intTruthy filter.chainId ∧ ¬ jsStrictEq chainId (.num (filter.chainId.getD 0)) then
      false
    else if strTruthy filter.token ∧ ¬ jsStrictEq token (.str (filter.token.getD "")) then
      false
    else if strTruthy filter.hash ∧ ¬ jsStrictEq hash (.str (filter.hash.getD "")) then
      false
    else
      true

/-- One routed invocation: the subscription id, the payload it was handed,
and the outcome of its callback (errors are caught by the router). -/
structure RouteEntry where
  subId : String
  payload : Payload
  outcome : Except String Unit

/-- The try/catch around a callback invocation inside routeMessage: the
callback is invoked and its outcome, thrown or not, is recorded. -/
def invokeCaught (sub : Subscription) (p : Payload) : RouteEntry :=
  { subId := sub.id, payload := p, outcome := sub.callback p }

/-- routeMessage (websocket.ts lines 287-303): every subscription whose type
equals the message type and whose filter (when present) matches the payload
has its callback invoked; exceptions are caught per subscription and never
abort the iteration. -/
def routeMessage (subs : List Subscription) (message : WebSocketMessage) :
    List RouteEntry :=
  subs.filterMap fun sub =>
    if sub.type = message.type then
      match sub.filter with
      | some f =>
        if matchesFilter message.payload f then
          some (invokeCaught sub message.payload)
        else
          none
      | none => some (invokeCaught sub message.payload)
    else
      none

/-- The fixed maximum number of consecutive reconnection attempts
(websocket.ts line 25). -/
def maxReconnectAttempts : Nat := 10

/-- The backoff ceiling in milliseconds (websocket.ts line 24). -/
def maxReconnectDelay : Nat := 30000

/-- The initial backoff delay in milliseconds (websocket.ts line 23). -/
def initialReconnectDelay : Nat := 1000

/-- The fixed connect timeout window in milliseconds (websocket.ts line 61). -/
def connectTimeoutMs : Nat := 10000

/-- The default endpoint URL (websocket.ts line 29). -/
def wsUrl : String := "wss://clearnet.yellow.com/ws"

/-- The payload of an outbound control message. -/
inductive OutPayload
  | subscribeAnn (messageType : String) (filter : Option SubscriptionFilter)
  | unsubscribeAnn (subscriptionId : String)
  | heartbeat (timestamp : Nat)

/-- An outbound message as handed to sendMessage. -/
structure OutboundMsg where
  type : String
  payload : OutPayload
  timestamp : Nat
  id : Option String

/-- How the promise returned by connect() settled. -/
inductive ConnectOutcome
  | resolved
  | rejectedTimeout
  | rejectedError
deriving DecidableEq, Repr

/-- The private fields of the WebSocketService instance, together with the
book-keeping the environment needs: the pending connect promise and its
timeout, a log of promise settlements, the log of sent frames, the log of
routed callback invocations, the close codes passed to ws.close, whether a
socket closed by disconnect() still has a close event to deliver, and
counters for created transports and fired reconnection attempts. -/
structure ServiceState where
  ws : Option Transport
  status : WebSocketStatus
  connectionState : Option WebSocketConnection
  subscriptions : List Subscription
  reconnectTimer : Bool
  heartbeatTimer : Bool
  reconnectDelay : Nat
  connectTimeoutArmed : Bool
  connectPending : Bool
  outcomes : List ConnectOutcome
  sent : List OutboundMsg
  delivered : List RouteEntry
  closedWith : List Nat
  staleClose : Bool
  transportsCreated : Nat
  reconnectAttempts : Nat
  now : Nat

/-- The state of the service as constructed (websocket.ts lines 17-26). -/
def initialState : ServiceState :=
  { ws := none
    status := .disconnected
    connectionState := none
    subscriptions := []
    reconnectTimer := false
    heartbeatTimer := false
    reconnectDelay := initialReconnectDelay
    connectTimeoutArmed := false
    connectPending := false
    outcomes := []
    sent := []
    delivered := []
    closedWith := []
    staleClose := false
    transportsCreated := 0
    reconnectAttempts := 0
    now := 0 }

/-- isConnected (websocket.ts lines 418-420): the socket exists and its
readyState is OPEN. -/
def isConnectedFn (s : ServiceState) : Bool :=
  match s.ws with
  | some t => t.readyState = .opened
  | none => false

/-- sendMessage (websocket.ts lines 169-180): sends only when connected,
otherwise a warning is logged and the message is dropped. -/
def sendMessage (s : ServiceState) (m : OutboundMsg) : ServiceState :=
  if isConnectedFn s then { s with sent := s.sent ++ [m] } else s

/-- clearTimers (websocket.ts lines 375-385): cancels the reconnect timeout
and the heartbeat interval. -/
def clearTimers (s : ServiceState) : ServiceState :=
  { s with reconnectTimer := false, heartbeatTimer := false }

/-- scheduleReconnect (websocket.ts lines 333-359): when connectionState is
null or its reconnectCount has reached the budget, the status becomes error
and nothing is scheduled; otherwise the status becomes reconnecting and a
timeout is armed with the current backoff delay. -/
def scheduleReconnect (s : ServiceState) : ServiceState :=
  match s.connectionState with
  | none => { s with status := .error }
  | some m =>
    if maxReconnectAttempts ≤ m.reconnectCount then
      { s with status := .error }
    else
      { s with status := .reconnecting, reconnectTimer := true }

/-- The announce frame sent for one subscription (websocket.ts lines
390-399 and 123-128). -/
def announceMsg (now : Nat) (sub : Subscription) : OutboundMsg :=
  { type := "subscription"
    payload := .subscribeAnn sub.type sub.filter
    timestamp := now
    id := some sub.id }

/-- resubscribeAll (websocket.ts lines 388-401): sends an announce frame
for every held subscription, in registration order. -/
def resubscribeAll (s : ServiceState) : ServiceState :=
  s.subscriptions.foldl (fun acc sub => sendMessage acc (announceMsg acc.now sub)) s

/-- onConnected (websocket.ts lines 204-225): sets status connected,
creates the ConnectionMeta with reconnectCount 0, resets the backoff delay
to its floor, starts the heartbeat interval and replays every held
subscription. -/
def onConnected (s : ServiceState) : ServiceState :=
  let s :=
    { s with
      status := .connected
      connectionState := some
        { isConnected := true
          lastHeartbeat := s.now
          reconnectCount := 0
          url := wsUrl }
      reconnectDelay := initialReconnectDelay
      heartbeatTimer := true }
  resubscribeAll s

/-- onDisconnected (websocket.ts lines 228-240): sets status disconnected,
clears the ConnectionMeta and the timers, and when the close code is not
the manual-closure code 1000 calls scheduleReconnect. -/
def onDisconnected (s : ServiceState) (code : Nat) : ServiceState :=
  let s := clearTimers { s with status := .disconnected, connectionState := none }
  if code ≠ 1000 then scheduleReconnect s else s

/-- The guard of connect (websocket.ts lines 41-43): the socket exists and
its readyState is CONNECTING or OPEN. -/
def connectGuard (s : ServiceState) : Bool :=
  match s.ws with
  | some t => t.readyState = .connecting ∨ t.readyState = .opened
  | none => false

/-- connect (websocket.ts lines 40-79): a no-op when the guard holds;
otherwise sets status connecting, creates a fresh transport, arms the
10-second timeout and leaves the returned promise pending. -/
def connectFn (s : ServiceState) : ServiceState :=
  if connectGuard s then s
  else
    { s with
      status := .connecting
      ws := some ⟨.connecting⟩
      transportsCreated := s.transportsCreated + 1
      connectTimeoutArmed := true
      connectPending := true }

/-- disconnect (websocket.ts lines 82-93): clears the timers, closes the
socket with code 1000 and drops the handle, sets status disconnected and
clears the ConnectionMeta. -/
def disconnectFn (s : ServiceState) : ServiceState :=
  let s := clearTimers s
  let s :=
    match s.ws with
    | some _ =>
      { s with closedWith := s.closedWith ++ [1000], staleClose := true, ws := none }
    | none => s
  { s with status := .disconnected, connectionState := none }

/-- subscribe (websocket.ts lines 106-132): always registers locally and
returns the generated id; announces to the server only when connected. -/
def subscribeFn (s : ServiceState) (type : String)
    (cb : Payload → Except String Unit) (filter : Option SubscriptionFilter) :
    ServiceState × String :=
  let id := "sub_" ++ toString s.now
  let sub : Subscription := { id := id, type := type, callback := cb, filter := filter }
  let s := { s with subscriptions := s.subscriptions ++ [sub] }
  let s :=
    if isConnectedFn s then
      sendMessage s
        { type := "subscription"
          payload := .subscribeAnn type filter
          timestamp := s.now
          id := some id }
    else s
  (s, id)

/-- unsubscribe (websocket.ts lines 135-149): removes the entry when the id
is known and announces the removal only when connected; unknown ids are a
silent no-op. -/
def unsubscribeFn (s : ServiceState) (subscriptionId : String) : ServiceState :=
  if s.subscriptions.any (fun sub => sub.id = subscriptionId) then
    let s := { s with subscriptions := s.subscriptions.filter (fun sub => sub.id ≠ subscriptionId) }
    if isConnectedFn s then
      sendMessage s
        { type := "unsubscription"
          payload := .unsubscribeAnn subscriptionId
          timestamp := s.now
          id := none }
    else s
  else s

/-- The wire frame as onMessage observes it after JSON.parse: unparseable
data, a parsed object without a res array, or a res frame carrying
sequence id, message type name and payload (websocket.ts lines 250-284). -/
inductive RawMsg
  | unparseable
  | noRes
  | resFrame (rid : String) (mtype : String) (payload : Payload)

/-- settling of the pending connect promise: a promise settles once; later
settlement calls are no-ops. -/
def settle (s : ServiceState) (o : ConnectOutcome) : ServiceState :=
  if s.connectPending then
    { s with connectPending := false, outcomes := s.outcomes ++ [o] }
  else s

/-- onMessage / handleClearNodeMessage (websocket.ts lines 250-284): a
parse failure is swallowed; any parsed frame refreshes lastHeartbeat; a res
frame is converted to a WebSocketMessage and routed. -/
def onMessageFn (s : ServiceState) (raw : RawMsg) : ServiceState :=
  match raw with
  | .unparseable => s
  | .noRes =>
    match s.connectionState with
    | some m => { s with connectionState := some { m with lastHeartbeat := s.now } }
    | none => s
  | .resFrame rid mtype p =>
    let s :=
      match s.connectionState with
      | some m => { s with connectionState := some { m with lastHeartbeat := s.now } }
      | none => s
    let message : WebSocketMessage :=
      { type := mtype, payload := p, timestamp := s.now, id := some rid }
    { s with delivered := s.delivered ++ routeMessage s.subscriptions message }

/-- The heartbeat frame (websocket.ts lines 362-372). -/
def heartbeatMsg (now : Nat) : OutboundMsg :=
  { type := "heartbeat", payload := .heartbeat now, timestamp := now, id := none }

/-- The events the service reacts to: the public API calls, the transport
events of the current socket (open; failure = error event followed by the
close event, delivered in one task per the WebSocket spec; graceful close),
the close event of a socket discarded by disconnect(), the connect timeout
and the two timer fires. -/
inductive Event
  | connectCall
  | disconnectCall
  | subscribeCall (type : String) (cb : Payload → Except String Unit)
      (filter : Option SubscriptionFilter)
  | unsubscribeCall (subscriptionId : String)
  | openEvt
  | failEvt (code : Nat)
  | closeEvt (code : Nat)
  | staleCloseEvt
  | timeoutFire
  | heartbeatFire
  | reconnectTimerFire
  | msgEvt (raw : RawMsg)

/-- One step of the event loop.  Each event is handled atomically, exactly
as the corresponding handler of the source runs; inapplicable events (a
fire of a timer that is not armed, a transport event with no matching
socket) leave the state unchanged.  The step counter `now` stands for
Date.now(). -/
def step (s0 : ServiceState) (e : Event) : ServiceState :=
  let s := { s0 with now := s0.now + 1 }
  match e with
  | .connectCall => connectFn s
  | .disconnectCall => disconnectFn s
  | .subscribeCall type cb filter => (subscribeFn s type cb filter).1
  | .unsubscribeCall subscriptionId => unsubscribeFn s subscriptionId
  | .openEvt =>
    match s.ws with
    | some t =>
      if t.readyState = .connecting then
        let s := { s with ws := some ⟨.opened⟩, connectTimeoutArmed := false }
        settle (onConnected s) .resolved
      else s
    | none => s
  | .failEvt code =>
    match s.ws with
    | some t =>
      if t.readyState = .connecting ∨ t.readyState = .opened then
        let s := { s with ws := some ⟨.closed⟩, connectTimeoutArmed := false }
        let s := settle s .rejectedError
        onDisconnected s code
      else s
    | none => s
  | .closeEvt code =>
    match s.ws with
    | some t =>
      if t.readyState = .opened then
        onDisconnected { s with ws := some ⟨.closed⟩ } code
      else s
    | none => s
  | .staleCloseEvt =>
    if s.staleClose then onDisconnected { s with staleClose := false } 1000 else s
  | .timeoutFire =>
    if s.connectTimeoutArmed then
      settle { s with connectTimeoutArmed := false } .rejectedTimeout
    else s
  | .heartbeatFire =>
    if s.heartbeatTimer then
      if isConnectedFn s then sendMessage s (heartbeatMsg s.now) else s
    else s
  | .reconnectTimerFire =>
    if s.reconnectTimer then
      let s :=
        { s with
          reconnectTimer := false
          reconnectAttempts := s.reconnectAttempts + 1
          connectionState := s.connectionState.map
            (fun m => { m with reconnectCount := m.reconnectCount + 1 }) }
      connectFn s
    else s
  | .msgEvt raw =>
    if isConnectedFn s then onMessageFn s raw else s

/-- Running the service from a state through a sequence of events. -/
def run (s : ServiceState) (evs : List Event) : ServiceState :=
  evs.foldl step s

theorem sendMessage_eta (s : ServiceState) (m : OutboundMsg) :
    sendMessage s m = { s with sent := (sendMessage s m).sent } := by
  unfold sendMessage
  split <;> rfl

theorem settle_eta (s : ServiceState) (o : ConnectOutcome) :
    settle s o =
      { s with
        connectPending := (settle s o).connectPending
        outcomes := (settle s o).outcomes } := by
  unfold settle
  split <;> rfl

theorem foldAnnounce_eta (subs : List Subscription) (s : ServiceState) :
    subs.foldl (fun acc sub => sendMessage acc (announceMsg acc.now sub)) s =
      { s with
        sent := (subs.foldl (fun acc sub => sendMessage acc (announceMsg acc.now sub)) s).sent } := by
  induction subs generalizing s with
  | nil => rfl
  | cons a l ih =>
    simp only [List.foldl_cons]
    rw [ih (sendMessage s (announceMsg s.now a))]
    rw [sendMessage_eta s (announceMsg s.now a)]

theorem resubscribeAll_eta (s : ServiceState) :
    resubscribeAll s = { s with sent := (resubscribeAll s).sent } := by
  unfold resubscribeAll
  exact foldAnnounce_eta s.subscriptions s

theorem onConnected_eta (s : ServiceState) :
    onConnected s =
      { s with
        status := .connected
        connectionState := some
          { isConnected := true
            lastHeartbeat := s.now
            reconnectCount := 0
            url := wsUrl }
        reconnectDelay := initialReconnectDelay
        heartbeatTimer := true
        sent := (onConnected s).sent } := by
  conv_lhs => unfold onConnected
  rw [resubscribeAll_eta]
  rfl

theorem onDisconnected_eta (s : ServiceState) (code : Nat) :
    onDisconnected s code =
      { s with
        status := (onDisconnected s code).status
        connectionState := none
        reconnectTimer := false
        heartbeatTimer := false } := by
  unfold onDisconnected clearTimers scheduleReconnect
  split <;> rfl

theorem onDisconnected_status (s : ServiceState) (code : Nat) :
    (onDisconnected s code).status = .disconnected ∨
      (onDisconnected s code).status = .error := by
  unfold onDisconnected clearTimers scheduleReconnect
  split
  · right; rfl
  · left; rfl

theorem onMessageFn_status (s : ServiceState) (raw : RawMsg) :
    (onMessageFn s raw).status = s.status := by
  unfold onMessageFn
  cases raw <;> cases h : s.connectionState <;> simp [h]

theorem onMessageFn_ws (s : ServiceState) (raw : RawMsg) :
    (onMessageFn s raw).ws = s.ws := by
  unfold onMessageFn
  cases raw <;> cases h : s.connectionState <;> simp [h]

theorem onMessageFn_reconnectTimer (s : ServiceState) (raw : RawMsg) :
    (onMessageFn s raw).reconnectTimer = s.reconnectTimer := by
  unfold onMessageFn
  cases raw <;> cases h : s.connectionState <;> simp [h]

theorem onMessageFn_isSome (s : ServiceState) (raw : RawMsg) :
    (onMessageFn s raw).connectionState.isSome = s.connectionState.isSome := by
  unfold onMessageFn
  cases raw <;> cases h : s.connectionState <;> simp [h]

/-- The reachability invariant of the service: the ConnectionMeta exists
exactly in the connected status, a connected status has an open socket, a
connecting status has a pending or open socket, the reconnect timeout is
never armed, and the reconnecting status is never assumed. -/
def Inv (s : ServiceState) : Prop :=
  (s.connectionState.isSome = true ↔ s.status = .connected)
  ∧ (s.status = .connected → s.ws = some ⟨.opened⟩)
  ∧ (s.status = .connecting → s.ws = some ⟨.connecting⟩ ∨ s.ws = some ⟨.opened⟩)
  ∧ s.reconnectTimer = false
  ∧ s.status ≠ .reconnecting

theorem inv_initial : Inv initialState := by
  refine ⟨?_, ?_, ?_, ?_, ?_⟩ <;> simp [initialState]

theorem inv_step (s0 : ServiceState) (e : Event) (h : Inv s0) : Inv (step s0 e) := by
  obtain ⟨h1, h2, h3, h4, h5⟩ := h
  cases e with
  | connectCall =>
    simp only [step]
    unfold connectFn
    split
    · exact ⟨h1, h2, h3, h4, h5⟩
    · rename_i hg
      refine ⟨?_, ?_, ?_, h4, ?_⟩
      · constructor
        · intro hs
          exfalso
          apply hg
          have hw := h2 (h1.mp hs)
          simp only [connectGuard]
          rw [show ({ s0 with now := s0.now + 1 } : ServiceState).ws = s0.ws from rfl, hw]
          simp
        · intro hs; exact absurd hs (by simp)
      · intro hs; exact absurd hs (by simp)
      · intro _; left; rfl
      · simp
  | disconnectCall =>
    simp only [step]
    unfold disconnectFn clearTimers
    cases hw : s0.ws <;>
      refine ⟨?_, ?_, ?_, ?_, ?_⟩ <;> simp [hw]
  | subscribeCall t cb f =>
    simp only [step]
    unfold subscribeFn
    dsimp only
    split
    · rw [sendMessage_eta]
      exact ⟨h1, h2, h3, h4, h5⟩
    · exact ⟨h1, h2, h3, h4, h5⟩
  | unsubscribeCall sid =>
    simp only [step]
    unfold unsubscribeFn
    split
    · dsimp only
      split
      · rw [sendMessage_eta]
        exact ⟨h1, h2, h3, h4, h5⟩
      · exact ⟨h1, h2, h3, h4, h5⟩
    · exact ⟨h1, h2, h3, h4, h5⟩
  | openEvt =>
    simp only [step]
    cases hw : s0.ws with
    | none =>
      dsimp only
      refine ⟨h1, ?_, ?_, h4, h5⟩ <;> intro hs
      · have hws := h2 hs; rw [hw] at hws; exact hws
      · have hws := h3 hs; rw [hw] at hws; exact hws
    | some t =>
      dsimp only
      split
      · rw [settle_eta, onConnected_eta]
        refine ⟨?_, ?_, ?_, h4, ?_⟩ <;> simp
      · refine ⟨h1, ?_, ?_, h4, h5⟩ <;> intro hs
        · have hws := h2 hs; rw [hw] at hws; exact hws
        · have hws := h3 hs; rw [hw] at hws; exact hws
  | failEvt code =>
    simp only [step]
    cases hw : s0.ws with
    | none =>
      dsimp only
      refine ⟨h1, ?_, ?_, h4, h5⟩ <;> intro hs
      · have hws := h2 hs; rw [hw] at hws; exact hws
      · have hws := h3 hs; rw [hw] at hws; exact hws
    | some t =>
      dsimp only
      split
      · rw [onDisconnected_eta]
        rcases onDisconnected_status
            (settle { s0 with now := s0.now + 1, ws := some ⟨.closed⟩, connectTimeoutArmed := false }
              .rejectedError) code with hst | hst <;>
          · refine ⟨?_, ?_, ?_, rfl, ?_⟩ <;> simp [hst]
      · refine ⟨h1, ?_, ?_, h4, h5⟩ <;> intro hs
        · have hws := h2 hs; rw [hw] at hws; exact hws
        · have hws := h3 hs; rw [hw] at hws; exact hws
  | closeEvt code =>
    simp only [step]
    cases hw : s0.ws with
    | none =>
      dsimp only
      refine ⟨h1, ?_, ?_, h4, h5⟩ <;> intro hs
      · have hws := h2 hs; rw [hw] at hws; exact hws
      · have hws := h3 hs; rw [hw] at hws; exact hws
    | some t =>
      dsimp only
      split
      · rw [onDisconnected_eta]
        rcases onDisconnected_status
            { s0 with now := s0.now + 1, ws := some ⟨.closed⟩ } code with hst | hst <;>
          · refine ⟨?_, ?_, ?_, rfl, ?_⟩ <;> simp [hst]
      · refine ⟨h1, ?_, ?_, h4, h5⟩ <;> intro hs
        · have hws := h2 hs; rw [hw] at hws; exact hws
        · have hws := h3 hs; rw [hw] at hws; exact hws
  | staleCloseEvt =>
    simp only [step]
    split
    · rw [onDisconnected_eta]
      rcases onDisconnected_status
          { s0 with now := s0.now + 1, staleClose := false } 1000 with hst | hst <;>
        · refine ⟨?_, ?_, ?_, rfl, ?_⟩ <;> simp [hst]
    · exact ⟨h1, h2, h3, h4, h5⟩
  | timeoutFire =>
    simp only [step]
    split
    · rw [settle_eta]
      exact ⟨h1, h2, h3, h4, h5⟩
    · exact ⟨h1, h2, h3, h4, h5⟩
  | heartbeatFire =>
    simp only [step]
    split
    · split
      · rw [sendMessage_eta]
        exact ⟨h1, h2, h3, h4, h5⟩
      · exact ⟨h1, h2, h3, h4, h5⟩
    · exact ⟨h1, h2, h3, h4, h5⟩
  | reconnectTimerFire =>
    simp only [step, h4, Bool.false_eq_true, if_false]
    exact ⟨h1, h2, h3, rfl, h5⟩
  | msgEvt raw =>
    simp only [step]
    split
    · refine ⟨?_, ?_, ?_, ?_, ?_⟩
      · rw [onMessageFn_isSome, onMessageFn_status]
        exact h1
      · intro hs
        rw [onMessageFn_status] at hs
        rw [onMessageFn_ws]
        exact h2 hs
      · intro hs
        rw [onMessageFn_status] at hs
        rw [onMessageFn_ws]
        exact h3 hs
      · rw [onMessageFn_reconnectTimer]
        exact h4
      · rw [onMessageFn_status]
        exact h5
    · exact ⟨h1, h2, h3, h4, h5⟩

/-- The invariant is preserved by any event sequence. -/
theorem inv_run_of (evs : List Event) : ∀ s : ServiceState, Inv s → Inv (run s evs) := by
  induction evs with
  | nil => intro s hs; exact hs
  | cons a l ih =>
    intro s hs
    exact ih (step s a) (inv_step s a hs)

/-- Every state reached from the initial state satisfies the invariant. -/
theorem inv_run (evs : List Event) : Inv (run initialState evs) :=
  inv_run_of evs initialState inv_initial

theorem onDisconnected_reconnectAttempts (s : ServiceState) (code : Nat) :
    (onDisconnected s code).reconnectAttempts = s.reconnectAttempts := by
  unfold onDisconnected clearTimers scheduleReconnect
  split <;> rfl

theorem onDisconnected_reconnectTimer (s : ServiceState) (code : Nat) :
    (onDisconnected s code).reconnectTimer = false := by
  unfold onDisconnected clearTimers scheduleReconnect
  split <;> rfl

theorem onMessageFn_reconnectAttempts (s : ServiceState) (raw : RawMsg) :
    (onMessageFn s raw).reconnectAttempts = s.reconnectAttempts := by
  unfold onMessageFn
  cases raw <;> cases h : s.connectionState <;> simp [h]

/-- Once the reconnect timeout is unarmed it stays unarmed and the
reconnection-attempt counter never moves: no handler of the service arms
the timer, because scheduleReconnect is only ever reached after the
ConnectionMeta has been cleared. -/
theorem step_timer_free (s : ServiceState) (e : Event) (h : s.reconnectTimer = false) :
    (step s e).reconnectTimer = false ∧
      (step s e).reconnectAttempts = s.reconnectAttempts := by
  cases e with
  | connectCall =>
    simp only [step]
    unfold connectFn
    split
    · exact ⟨h, rfl⟩
    · exact ⟨h, rfl⟩
  | disconnectCall =>
    simp only [step]
    unfold disconnectFn clearTimers
    cases hw : s.ws <;> simp [hw]
  | subscribeCall t cb f =>
    simp only [step]
    unfold subscribeFn
    dsimp only
    split
    · rw [sendMessage_eta]
      exact ⟨h, rfl⟩
    · exact ⟨h, rfl⟩
  | unsubscribeCall sid =>
    simp only [step]
    unfold unsubscribeFn
    split
    · dsimp only
      split
      · rw [sendMessage_eta]
        exact ⟨h, rfl⟩
      · exact ⟨h, rfl⟩
    · exact ⟨h, rfl⟩
  | openEvt =>
    simp only [step]
    cases hw : s.ws with
    | none => exact ⟨h, rfl⟩
    | some t =>
      dsimp only
      split
      · rw [settle_eta, onConnected_eta]
        exact ⟨h, rfl⟩
      · exact ⟨h, rfl⟩
  | failEvt code =>
    simp only [step]
    cases hw : s.ws with
    | none => exact ⟨h, rfl⟩
    | some t =>
      dsimp only
      split
      · rw [settle_eta] at *
        refine ⟨onDisconnected_reconnectTimer _ _, ?_⟩
        rw [onDisconnected_reconnectAttempts]
      · exact ⟨h, rfl⟩
  | closeEvt code =>
    simp only [step]
    cases hw : s.ws with
    | none => exact ⟨h, rfl⟩
    | some t =>
      dsimp only
      split
      · refine ⟨onDisconnected_reconnectTimer _ _, ?_⟩
        rw [onDisconnected_reconnectAttempts]
      · exact ⟨h, rfl⟩
  | staleCloseEvt =>
    simp only [step]
    split
    · refine ⟨onDisconnected_reconnectTimer _ _, ?_⟩
      rw [onDisconnected_reconnectAttempts]
    · exact ⟨h, rfl⟩
  | timeoutFire =>
    simp only [step]
    split
    · rw [settle_eta]
      exact ⟨h, rfl⟩
    · exact ⟨h, rfl⟩
  | heartbeatFire =>
    simp only [step]
    split
    · split
      · rw [sendMessage_eta]
        exact ⟨h, rfl⟩
      · exact ⟨h, rfl⟩
    · exact ⟨h, rfl⟩
  | reconnectTimerFire =>
    simp only [step, h, Bool.false_eq_true, if_false]
    exact ⟨trivial, trivial⟩
  | msgEvt raw =>
    simp only [step]
    split
    · refine ⟨?_, ?_⟩
      · rw [onMessageFn_reconnectTimer]
        exact h
      · rw [onMessageFn_reconnectAttempts]
    · exact ⟨h, rfl⟩

/-- Along any event sequence starting with the reconnect timeout unarmed,
it stays unarmed and no reconnection attempt ever fires. -/
theorem run_timer_free (evs : List Event) :
    ∀ s : ServiceState, s.reconnectTimer = false →
      (run s evs).reconnectTimer = false ∧
        (run s evs).reconnectAttempts = s.reconnectAttempts := by
  induction evs with
  | nil => intro s h; exact ⟨h, rfl⟩
  | cons a l ih =>
    intro s h
    obtain ⟨hA, hB⟩ := step_timer_free s a h
    obtain ⟨hC, hD⟩ := ih (step s a) hA
    exact ⟨hC, hD.trans hB⟩

/-- The state right after disconnect() satisfies the invariant whatever the
state before was. -/
theorem inv_disconnect (s : ServiceState) : Inv (disconnectFn s) := by
  unfold disconnectFn clearTimers
  cases hw : s.ws <;> refine ⟨?_, ?_, ?_, ?_, ?_⟩ <;> simp [hw]

theorem resubscribeAll_status (s : ServiceState) :
    (resubscribeAll s).status = s.status := by
  rw [resubscribeAll_eta]

theorem resubscribeAll_connectionState (s : ServiceState) :
    (resubscribeAll s).connectionState = s.connectionState := by
  rw [resubscribeAll_eta]

theorem resubscribeAll_outcomes (s : ServiceState) :
    (resubscribeAll s).outcomes = s.outcomes := by
  rw [resubscribeAll_eta]

theorem resubscribeAll_connectPending (s : ServiceState) :
    (resubscribeAll s).connectPending = s.connectPending := by
  rw [resubscribeAll_eta]

theorem resubscribeAll_delivered (s : ServiceState) :
    (resubscribeAll s).delivered = s.delivered := by
  rw [resubscribeAll_eta]

theorem resubscribeAll_subscriptions (s : ServiceState) :
    (resubscribeAll s).subscriptions = s.subscriptions := by
  rw [resubscribeAll_eta]

theorem onConnected_status (s : ServiceState) :
    (onConnected s).status = WebSocketStatus.connected := by
  rw [onConnected_eta]

theorem onConnected_ws (s : ServiceState) : (onConnected s).ws = s.ws := by
  rw [onConnected_eta]

theorem onConnected_outcomes (s : ServiceState) :
    (onConnected s).outcomes = s.outcomes := by
  rw [onConnected_eta]

theorem onConnected_connectPending (s : ServiceState) :
    (onConnected s).connectPending = s.connectPending := by
  rw [onConnected_eta]

theorem onConnected_delivered (s : ServiceState) :
    (onConnected s).delivered = s.delivered := by
  rw [onConnected_eta]

theorem onConnected_subscriptions (s : ServiceState) :
    (onConnected s).subscriptions = s.subscriptions := by
  rw [onConnected_eta]

theorem settle_status (s : ServiceState) (o : ConnectOutcome) :
    (settle s o).status = s.status := by
  rw [settle_eta]

theorem settle_sent (s : ServiceState) (o : ConnectOutcome) :
    (settle s o).sent = s.sent := by
  rw [settle_eta]

theorem settle_delivered (s : ServiceState) (o : ConnectOutcome) :
    (settle s o).delivered = s.delivered := by
  rw [settle_eta]

theorem settle_subscriptions (s : ServiceState) (o : ConnectOutcome) :
    (settle s o).subscriptions = s.subscriptions := by
  rw [settle_eta]

theorem settle_connectionState (s : ServiceState) (o : ConnectOutcome) :
    (settle s o).connectionState = s.connectionState := by
  rw [settle_eta]

theorem settle_outcomes_pending (s : ServiceState) (o : ConnectOutcome)
    (h : s.connectPending = true) :
    (settle s o).outcomes = s.outcomes ++ [o] := by
  simp [settle, h]

theorem onDisconnected_outcomes (s : ServiceState) (code : Nat) :
    (onDisconnected s code).outcomes = s.outcomes := by
  unfold onDisconnected clearTimers scheduleReconnect
  split <;> rfl

theorem onDisconnected_sent (s : ServiceState) (code : Nat) :
    (onDisconnected s code).sent = s.sent := by
  unfold onDisconnected clearTimers scheduleReconnect
  split <;> rfl

/-- When the close code is not 1000, onDisconnected always ends in the
error status: it clears the ConnectionMeta before calling
scheduleReconnect, so the null-meta guard of scheduleReconnect fires on
every such call. -/
theorem onDisconnected_error_of_abnormal_code (s : ServiceState) (code : Nat)
    (hc : code ≠ 1000) :
    (onDisconnected s code).status = WebSocketStatus.error := by
  unfold onDisconnected clearTimers scheduleReconnect
  rw [if_pos hc]

/-- Folding sendMessage over a subscription list while the socket is open
appends exactly one announce frame per subscription, in list order. -/
theorem foldAnnounce_sent (subs : List Subscription) (s : ServiceState)
    (h : isConnectedFn s = true) :
    (subs.foldl (fun acc sub => sendMessage acc (announceMsg acc.now sub)) s).sent =
      s.sent ++ subs.map (announceMsg s.now) := by
  induction subs generalizing s with
  | nil => simp
  | cons a l ih =>
    simp only [List.foldl_cons, List.map_cons]
    have hsend : sendMessage s (announceMsg s.now a) =
        { s with sent := s.sent ++ [announceMsg s.now a] } := by
      unfold sendMessage
      rw [if_pos h]
    rw [hsend, ih { s with sent := s.sent ++ [announceMsg s.now a] } h]
    simp

theorem resubscribeAll_sent (s : ServiceState) (h : isConnectedFn s = true) :
    (resubscribeAll s).sent = s.sent ++ s.subscriptions.map (announceMsg s.now) := by
  unfold resubscribeAll
  exact foldAnnounce_sent s.subscriptions s h

/-- C1: the claim states that a transport close with a non-manual code in
the Connected state drives the machine to Reconnecting with a scheduled
reconnection attempt.  The code instead nulls connectionState inside
onDisconnected before calling scheduleReconnect, whose null-meta guard
then forces the error status and schedules nothing: evaluated at a freshly
connected service receiving an abnormal close (code 1006), the resulting
status is Error, not Reconnecting, and no reconnect timer is armed. -/
theorem C1_abnormal_close_reaches_error_without_reconnect :
    (run initialState [Event.connectCall, Event.openEvt]).status =
      WebSocketStatus.connected ∧
    (run initialState [Event.connectCall, Event.openEvt]).connectionState.isSome = true ∧
    (run initialState [Event.connectCall, Event.openEvt, Event.closeEvt 1006]).status =
      WebSocketStatus.error ∧
    (run initialState [Event.connectCall, Event.openEvt, Event.closeEvt 1006]).status ≠
      WebSocketStatus.reconnecting ∧
    (run initialState [Event.connectCall, Event.openEvt, Event.closeEvt 1006]).reconnectTimer =
      false := by
  refine ⟨rfl, rfl, rfl, ?_, rfl⟩
  intro h
  rw [show (run initialState [Event.connectCall, Event.openEvt, Event.closeEvt 1006]).status =
    WebSocketStatus.error from rfl] at h
  exact absurd h (by decide)

/-- The backoff update executed when a reconnection attempt fails
(websocket.ts line 355): the delay doubles and is capped at the ceiling. -/
def reconnectFailureBackoff (s : ServiceState) : ServiceState :=
  { s with reconnectDelay := min (s.reconnectDelay * 2) maxReconnectDelay }

/-- The delay with which the n-th consecutive reconnection attempt is
scheduled (0-indexed: index 0 is attempt 1): the service starts at the
floor and applies the doubling-with-ceiling update after each failure. -/
def delayForAttempt : Nat → Nat
  | 0 => initialReconnectDelay
  | n + 1 => min (delayForAttempt n * 2) maxReconnectDelay

/-- C2: the reconnection backoff delay starts at the floor (1000 ms = 1
second), doubles after every failed attempt, is capped at the ceiling
(30000 ms = 30 seconds); over attempts 1..10 the delay sequence is
1,2,4,8,16,30,30,30,30,30 seconds, it is non-decreasing, never exceeds the
ceiling, each failure applies exactly the doubling-with-ceiling update of
the code, and every successful Connected transition (onConnected) resets
the delay to the floor. -/
theorem C2_backoff_floor_doubling_ceiling_reset :
    ((List.range 10).map delayForAttempt =
      [1000, 2000, 4000, 8000, 16000, 30000, 30000, 30000, 30000, 30000]) ∧
    (∀ n, delayForAttempt n ≤ delayForAttempt (n + 1)) ∧
    (∀ n, delayForAttempt n ≤ maxReconnectDelay) ∧
    (∀ s : ServiceState, (reconnectFailureBackoff s).reconnectDelay =
      min (s.reconnectDelay * 2) maxReconnectDelay) ∧
    (∀ s : ServiceState, (onConnected s).reconnectDelay = initialReconnectDelay) := by
  have hcap : ∀ n, delayForAttempt n ≤ maxReconnectDelay := by
    intro n
    cases n with
    | zero => decide
    | succ k => exact min_le_right _ _
  refine ⟨by decide, ?_, hcap, fun s => rfl, ?_⟩
  · intro n
    have hn := hcap n
    show delayForAttempt n ≤ min (delayForAttempt n * 2) maxReconnectDelay
    exact le_min (by omega) hn
  · intro s
    rw [onConnected_eta]

/-- C3: scheduleReconnect enforces the fixed attempt budget of 10: called
with a ConnectionMeta recording at least 10 consecutive failed attempts it
sets the status to Error and leaves the reconnect timeout unarmed, and no
later event can ever fire a reconnection attempt from that state; called
below the budget it sets Reconnecting and arms the timer. -/
theorem C3_attempt_budget_exhaustion (s : ServiceState) (m : WebSocketConnection)
    (hm : s.connectionState = some m) (ht : s.reconnectTimer = false) :
    (maxReconnectAttempts ≤ m.reconnectCount →
      (scheduleReconnect s).status = WebSocketStatus.error ∧
      (scheduleReconnect s).reconnectTimer = false ∧
      (∀ evs, (run (scheduleReconnect s) evs).reconnectAttempts =
        (scheduleReconnect s).reconnectAttempts)) ∧
    (m.reconnectCount < maxReconnectAttempts →
      (scheduleReconnect s).status = WebSocketStatus.reconnecting ∧
      (scheduleReconnect s).reconnectTimer = true) := by
  unfold scheduleReconnect
  rw [hm]
  dsimp only
  constructor
  · intro hge
    rw [if_pos hge]
    refine ⟨rfl, ht, ?_⟩
    intro evs
    exact (run_timer_free evs
      { s with status := WebSocketStatus.error, connectionState := some m } ht).2
  · intro hlt
    rw [if_neg (by omega)]
    exact ⟨rfl, rfl⟩

/-- A state whose ConnectionMeta records ten consecutive failed attempts. -/
def budgetExhaustedState : ServiceState :=
  { initialState with
    connectionState := some
      { isConnected := false, lastHeartbeat := 0, reconnectCount := 10, url := wsUrl } }

theorem C3_attempt_budget_exhaustion_witness :
    maxReconnectAttempts ≤ (10 : Nat) ∧
    (scheduleReconnect budgetExhaustedState).status = WebSocketStatus.error ∧
    (scheduleReconnect budgetExhaustedState).reconnectTimer = false := by
  have h :=
    (C3_attempt_budget_exhaustion budgetExhaustedState
      { isConnected := false, lastHeartbeat := 0, reconnectCount := 10, url := wsUrl }
      rfl rfl).1 (by decide)
  exact ⟨by decide, h.1, h.2.1⟩

/-- C4: at every reachable state of the service, the ConnectionMeta record
(the connectionState field) is non-null exactly when the ConnectionState is
Connected or Reconnecting; Error and Disconnected states always carry a
null ConnectionMeta and the Connected state always carries one. -/
theorem C4_meta_nonnull_iff_connected_or_reconnecting (evs : List Event) :
    ((run initialState evs).connectionState ≠ none ↔
      ((run initialState evs).status = WebSocketStatus.connected ∨
        (run initialState evs).status = WebSocketStatus.reconnecting)) := by
  obtain ⟨h1, h2, h3, h4, h5⟩ := inv_run evs
  constructor
  · intro hne
    exact Or.inl (h1.mp (Option.isSome_iff_ne_none.mpr hne))
  · rintro (hc | hr)
    · exact Option.isSome_iff_ne_none.mp (h1.mpr hc)
    · exact absurd hr h5

/-- C9: connect() is idempotent while Connecting or Connected: in every
reachable state whose status is Connecting or Connected, connect() returns
the state completely unchanged, so no second transport is created and no
duplicate announcement is sent. -/
theorem C9_connect_idempotent_while_connecting_or_connected (evs : List Event)
    (h : (run initialState evs).status = WebSocketStatus.connecting ∨
      (run initialState evs).status = WebSocketStatus.connected) :
    connectFn (run initialState evs) = run initialState evs := by
  obtain ⟨h1, h2, h3, h4, h5⟩ := inv_run evs
  unfold connectFn
  rcases h with hc | hc
  · rcases h3 hc with hw | hw <;> simp [connectGuard, hw]
  · simp [connectGuard, h2 hc]

/-- Whether a subscription receives a message under the routing test of
routeMessage: equal type and, when a filter is present, matchesFilter. -/
def subMatches (sub : Subscription) (message : WebSocketMessage) : Bool :=
  sub.type = message.type &&
    match sub.filter with
    | some f => matchesFilter message.payload f
    | none => true

theorem route_fn_eq (sub : Subscription) (message : WebSocketMessage) :
    (if sub.type = message.type then
      match sub.filter with
      | some f =>
        if matchesFilter message.payload f then
          some (invokeCaught sub message.payload)
        else
          none
      | none => some (invokeCaught sub message.payload)
     else none) =
      if subMatches sub message = true then some (invokeCaught sub message.payload)
      else none := by
  unfold subMatches
  by_cases ht : sub.type = message.type
  · cases hf : sub.filter with
    | none => simp [ht]
    | some f => by_cases hm : matchesFilter message.payload f <;> simp [ht, hm]
  · simp [ht]

/-- The router invokes, in registration order, exactly the subscriptions
passing the routing test, handing each the message payload and recording
the caught outcome of its callback. -/
theorem routeMessage_characterization (subs : List Subscription)
    (message : WebSocketMessage) :
    routeMessage subs message =
      (subs.filter (fun sub => subMatches sub message)).map
        (fun sub => invokeCaught sub message.payload) := by
  induction subs with
  | nil => rfl
  | cons a l ih =>
    simp only [routeMessage] at ih ⊢
    rw [List.filterMap_cons, route_fn_eq]
    by_cases h : subMatches a message = true
    · rw [if_pos h]
      simp [List.filter_cons, h, ih]
    · rw [if_neg h]
      simp [List.filter_cons, h, ih]

/-- Stated from the words of claim C7, for comparison with matchesFilter:
every specified filter field must equality-match the corresponding payload
field, a specified filter field absent from the payload (in particular any
field of a payload that is not an object) is no match, and unspecified
fields are wildcards. -/
def claimFilterMatches (payload : Payload) (filter : SubscriptionFilter) : Bool :=
  match payload with
  | .nonObject =>
    filter.address = none && filter.chainId = none &&
      filter.token = none && filter.hash = none
  | .obj address chainId token hash =>
    (match filter.address with | none => true | some v => jsStrictEq address (.str v)) &&
    (match filter.chainId with | none => true | some v => jsStrictEq chainId (.num v)) &&
    (match filter.token with | none => true | some v => jsStrictEq token (.str v)) &&
    (match filter.hash with | none => true | some v => jsStrictEq hash (.str v))

/-- C7 counterexample: the claim demands that a specified filter field
absent from the payload is no match, so a subscription filtering on hash
must not receive a message whose payload has no hash field.  The code
returns true from matchesFilter for every payload that is not an object,
so the subscription with filter hash = 0xabc does receive a message whose
payload is a bare non-object value: the routed invocation list is
non-empty where the claim requires it empty. -/
theorem C7_counterexample_nonobject_payload_matches :
    matchesFilter Payload.nonObject { hash := some "0xabc" } = true ∧
    claimFilterMatches Payload.nonObject { hash := some "0xabc" } = false ∧
    routeMessage
      [{ id := "s1", type := "transaction_update", callback := fun _ => Except.ok (),
         filter := some { hash := some "0xabc" } }]
      { type := "transaction_update", payload := Payload.nonObject,
        timestamp := 0, id := none } =
      [{ subId := "s1", payload := Payload.nonObject, outcome := Except.ok () }] :=
  ⟨rfl, rfl, rfl⟩

/-- The filter semantics the code implements, stated from the amended
claim: a payload that is not an object matches every filter, and otherwise
every filter field specified with a truthy value (a non-empty string, a
non-zero number) must be strictly equal to the corresponding payload
field; a truthy filter field absent from an object payload is no match,
and falsy or absent filter fields are wildcards. -/
def amendedMatches (payload : Payload) (filter : SubscriptionFilter) : Bool :=
  match payload with
  | .nonObject => true
  | .obj address chainId token hash =>
    (!strTruthy filter.address || jsStrictEq address (.str (filter.address.getD ""))) &&
    (!intTruthy filter.chainId || jsStrictEq chainId (.num (filter.chainId.getD 0))) &&
    (!strTruthy filter.token || jsStrictEq token (.str (filter.token.getD ""))) &&
    (!strTruthy filter.hash || jsStrictEq hash (.str (filter.hash.getD "")))

/-- C7 amended: a subscription callback is invoked exactly when the
message type equals the subscription type and the filter, if any, matches;
matchesFilter equals the amended semantics (non-object payloads match
everything, truthy-specified fields must equality-match and absent payload
fields fail them, falsy or absent filter fields are wildcards); and a
subscription with no filter receives every message of its type. -/
theorem C7_amended_filter_semantics :
    (∀ payload filter, matchesFilter payload filter = amendedMatches payload filter) ∧
    (∀ subs message, routeMessage subs message =
      (subs.filter (fun sub => subMatches sub message)).map
        (fun sub => invokeCaught sub message.payload)) ∧
    (∀ sub message, sub.filter = none → sub.type = message.type →
      subMatches sub message = true) := by
  refine ⟨?_, routeMessage_characterization, ?_⟩
  · intro payload filter
    cases payload with
    | nonObject => rfl
    | obj a c t h =>
      simp only [matchesFilter, amendedMatches]
      split_ifs with h1 h2 h3 h4 <;> simp_all
      refine ⟨⟨⟨?_, ?_⟩, ?_⟩, ?_⟩
      · cases hx : strTruthy filter.address
        · exact Or.inl rfl
        · exact Or.inr (h1 hx)
      · cases hx : intTruthy filter.chainId
        · exact Or.inl rfl
        · exact Or.inr (h2 hx)
      · cases hx : strTruthy filter.token
        · exact Or.inl rfl
        · exact Or.inr (h3 hx)
      · cases hx : strTruthy filter.hash
        · exact Or.inl rfl
        · exact Or.inr (h4 hx)
  · intro sub message hf ht
    simp [subMatches, hf, ht]

theorem C7_amended_filter_semantics_witness :
    subMatches
      { id := "s2", type := "network_status", callback := fun _ => Except.ok (),
        filter := none }
      { type := "network_status", payload := Payload.nonObject,
        timestamp := 0, id := none } = true :=
  C7_amended_filter_semantics.2.2
    { id := "s2", type := "network_status", callback := fun _ => Except.ok (),
      filter := none }
    { type := "network_status", payload := Payload.nonObject, timestamp := 0, id := none }
    rfl rfl

/-- C10: callback isolation: for any message and any two matching
subscriptions S1 before S2 in the registry, if the callback of S1 throws,
the router records the caught exception for S1 and still invokes the
callback of S2 with the message payload; routing of every other
subscription is unaffected and the router returns normally (it is a total
function of the registry and the message). -/
theorem C10_callback_isolation (pre mid post : List Subscription)
    (s1 s2 : Subscription) (message : WebSocketMessage) (e : String)
    (h1 : subMatches s1 message = true)
    (h2 : subMatches s2 message = true)
    (hthrow : s1.callback message.payload = Except.error e) :
    routeMessage (pre ++ s1 :: mid ++ s2 :: post) message =
      routeMessage pre message ++
        ({ subId := s1.id, payload := message.payload, outcome := Except.error e } ::
          (routeMessage mid message ++
            (invokeCaught s2 message.payload :: routeMessage post message))) := by
  simp only [routeMessage_characterization, List.filter_append, List.filter_cons, h1, h2,
    if_true, List.map_append, List.map_cons]
  simp [invokeCaught, hthrow]

theorem C10_callback_isolation_witness :
    routeMessage
      [{ id := "s1", type := "transaction_update",
         callback := fun _ => Except.error "boom", filter := none },
       { id := "s2", type := "transaction_update",
         callback := fun _ => Except.ok (), filter := none }]
      { type := "transaction_update", payload := Payload.nonObject,
        timestamp := 0, id := none } =
      [{ subId := "s1", payload := Payload.nonObject, outcome := Except.error "boom" },
       { subId := "s2", payload := Payload.nonObject, outcome := Except.ok () }] := by
  have h := C10_callback_isolation [] [] []
    { id := "s1", type := "transaction_update",
      callback := fun _ => Except.error "boom", filter := none }
    { id := "s2", type := "transaction_update",
      callback := fun _ => Except.ok (), filter := none }
    { type := "transaction_update", payload := Payload.nonObject, timestamp := 0, id := none }
    "boom" rfl rfl rfl
  simpa [invokeCaught] using h

/-- C8: subscriptions registered while not connected are held locally with
no announcement sent, appended in registration order; on the next
successful connection (the transport open event of a connecting socket)
every held subscription is announced exactly once, in registration order,
while the registry is unchanged and no message is routed during the step:
newly arrived messages are routed only by later message events. -/
theorem C8_replay_on_connect (s : ServiceState) :
    (∀ t cb f, isConnectedFn s = false →
      ((subscribeFn s t cb f).1.sent = s.sent ∧
       (subscribeFn s t cb f).1.subscriptions = s.subscriptions ++
         [{ id := "sub_" ++ toString s.now, type := t, callback := cb, filter := f }])) ∧
    (s.ws = some ⟨ReadyState.connecting⟩ →
      ((step s Event.openEvt).sent =
        s.sent ++ s.subscriptions.map (announceMsg (s.now + 1)) ∧
       (step s Event.openEvt).delivered = s.delivered ∧
       (step s Event.openEvt).subscriptions = s.subscriptions)) := by
  constructor
  · intro t cb f h
    unfold subscribeFn
    dsimp only
    have h' : isConnectedFn
        { s with subscriptions := s.subscriptions ++
          [{ id := "sub_" ++ toString s.now, type := t, callback := cb, filter := f }] } =
        false := h
    rw [h']
    simp
  · intro hw
    simp only [step]
    rw [hw]
    dsimp only
    rw [if_pos rfl]
    refine ⟨?_, ?_, ?_⟩
    · rw [settle_sent]
      unfold onConnected
      dsimp only
      rw [resubscribeAll_sent]
      rfl
    · rw [settle_delivered, onConnected_delivered]
    · rw [settle_subscriptions, onConnected_subscriptions]

theorem C8_replay_on_connect_witness :
    isConnectedFn initialState = false ∧
    (subscribeFn initialState "network_status" (fun _ => Except.ok ()) none).1.sent =
      initialState.sent ∧
    (run initialState
      [Event.subscribeCall "network_status" (fun _ => Except.ok ()) none,
        Event.connectCall]).ws = some ⟨ReadyState.connecting⟩ ∧
    (step (run initialState
        [Event.subscribeCall "network_status" (fun _ => Except.ok ()) none,
          Event.connectCall]) Event.openEvt).sent =
      (run initialState
        [Event.subscribeCall "network_status" (fun _ => Except.ok ()) none,
          Event.connectCall]).sent ++
        (run initialState
          [Event.subscribeCall "network_status" (fun _ => Except.ok ()) none,
            Event.connectCall]).subscriptions.map
          (announceMsg ((run initialState
            [Event.subscribeCall "network_status" (fun _ => Except.ok ()) none,
              Event.connectCall]).now + 1)) := by
  refine ⟨rfl, ?_, rfl, ?_⟩
  · exact ((C8_replay_on_connect initialState).1 "network_status"
      (fun _ => Except.ok ()) none rfl).1
  · exact ((C8_replay_on_connect (run initialState
      [Event.subscribeCall "network_status" (fun _ => Except.ok ()) none,
        Event.connectCall])).2 rfl).1

/-- C6: disconnect() always transitions to Disconnected, closes the
transport with the normal-closure code 1000, cancels the heartbeat and
reconnection timers and clears the ConnectionMeta — and afterwards no
reconnection attempt ever occurs regardless of elapsed time or delivered
events: the reconnect timeout stays unarmed, the attempt counter never
moves and the Reconnecting status is never entered. -/
theorem C6_disconnect_never_reconnects (s : ServiceState) (evs : List Event) :
    (disconnectFn s).status = WebSocketStatus.disconnected ∧
    (disconnectFn s).connectionState = none ∧
    (disconnectFn s).reconnectTimer = false ∧
    (disconnectFn s).heartbeatTimer = false ∧
    (disconnectFn s).ws = none ∧
    (s.ws ≠ none → (disconnectFn s).closedWith = s.closedWith ++ [1000]) ∧
    (run (disconnectFn s) evs).reconnectTimer = false ∧
    (run (disconnectFn s) evs).reconnectAttempts = (disconnectFn s).reconnectAttempts ∧
    (run (disconnectFn s) evs).status ≠ WebSocketStatus.reconnecting := by
  have hpost : (disconnectFn s).status = WebSocketStatus.disconnected ∧
      (disconnectFn s).connectionState = none ∧
      (disconnectFn s).reconnectTimer = false ∧
      (disconnectFn s).heartbeatTimer = false ∧
      (disconnectFn s).ws = none ∧
      (s.ws ≠ none → (disconnectFn s).closedWith = s.closedWith ++ [1000]) := by
    unfold disconnectFn clearTimers
    cases hw : s.ws <;> simp [hw]
  obtain ⟨hrun1, hrun2⟩ := run_timer_free evs (disconnectFn s) hpost.2.2.1
  have hinv := inv_run_of evs (disconnectFn s) (inv_disconnect s)
  exact ⟨hpost.1, hpost.2.1, hpost.2.2.1, hpost.2.2.2.1, hpost.2.2.2.2.1,
    hpost.2.2.2.2.2, hrun1, hrun2, hinv.2.2.2.2⟩

/-- A freshly connected service, used as a concrete evaluation point. -/
def connectedExampleState : ServiceState :=
  run initialState [Event.connectCall, Event.openEvt]

theorem C6_disconnect_never_reconnects_witness :
    connectedExampleState.ws ≠ none ∧
    (disconnectFn connectedExampleState).closedWith =
      connectedExampleState.closedWith ++ [1000] ∧
    (run (disconnectFn connectedExampleState)
      [Event.staleCloseEvt, Event.reconnectTimerFire, Event.closeEvt 1006]).reconnectTimer =
      false := by
  have hne : connectedExampleState.ws ≠ none := by
    rw [show connectedExampleState.ws = some ⟨ReadyState.opened⟩ from rfl]
    simp
  have h := C6_disconnect_never_reconnects connectedExampleState
    [Event.staleCloseEvt, Event.reconnectTimerFire, Event.closeEvt 1006]
  exact ⟨hne, h.2.2.2.2.2.1 hne, h.2.2.2.2.2.2.1⟩

/-- C5 counterexample: the claim requires a timeout during Connecting to
transition the state to Error.  Evaluated on the code, firing the 10
second connect timeout from the Connecting state rejects the connect
promise with the ConnectTimeout error but leaves the status Connecting:
the state does not become Error. -/
theorem C5_counterexample_timeout_keeps_connecting :
    (run initialState [Event.connectCall]).status = WebSocketStatus.connecting ∧
    (run initialState [Event.connectCall, Event.timeoutFire]).outcomes =
      [ConnectOutcome.rejectedTimeout] ∧
    (run initialState [Event.connectCall, Event.timeoutFire]).status =
      WebSocketStatus.connecting ∧
    (run initialState [Event.connectCall, Event.timeoutFire]).status ≠
      WebSocketStatus.error := by
  refine ⟨rfl, rfl, rfl, ?_⟩
  intro h
  rw [show (run initialState [Event.connectCall, Event.timeoutFire]).status =
    WebSocketStatus.connecting from rfl] at h
  exact absurd h (by decide)

/-- C5 amended: when connect() is called with no pending or open transport
(the code guard for the no-op return), the status becomes Connecting, a
fresh transport is created, the fixed 10000 ms timeout window is armed and
the returned promise is left pending; the transport open event resolves
the promise and yields Connected; the timeout fire rejects the promise
with the ConnectTimeout error but leaves the status Connecting (no
transition to Error); a transport failure with a non-manual close code
rejects the promise with the transport error and drives the status to
Error through the close handling. -/
theorem C5_amended_connect_contract (s : ServiceState) (hg : connectGuard s = false) :
    (connectFn s).status = WebSocketStatus.connecting ∧
    (connectFn s).ws = some ⟨ReadyState.connecting⟩ ∧
    (connectFn s).transportsCreated = s.transportsCreated + 1 ∧
    (connectFn s).connectTimeoutArmed = true ∧
    connectTimeoutMs = 10000 ∧
    (step (connectFn s) Event.openEvt).status = WebSocketStatus.connected ∧
    (step (connectFn s) Event.openEvt).outcomes = s.outcomes ++ [ConnectOutcome.resolved] ∧
    (step (connectFn s) Event.timeoutFire).status = WebSocketStatus.connecting ∧
    (step (connectFn s) Event.timeoutFire).outcomes =
      s.outcomes ++ [ConnectOutcome.rejectedTimeout] ∧
    (∀ code, code ≠ 1000 →
      (step (connectFn s) (Event.failEvt code)).status = WebSocketStatus.error ∧
      (step (connectFn s) (Event.failEvt code)).outcomes =
        s.outcomes ++ [ConnectOutcome.rejectedError]) := by
  have hc : connectFn s =
      { s with
        status := WebSocketStatus.connecting
        ws := some ⟨ReadyState.connecting⟩
        transportsCreated := s.transportsCreated + 1
        connectTimeoutArmed := true
        connectPending := true } := by
    unfold connectFn
    rw [if_neg (by simp [hg])]
  rw [hc]
  refine ⟨rfl, rfl, rfl, rfl, rfl, ?_, ?_, ?_, ?_, ?_⟩
  · simp only [step, if_true]
    rw [settle_status, onConnected_status]
  · simp only [step, if_true]
    rw [settle_outcomes_pending, onConnected_outcomes]
    rw [onConnected_connectPending]
  · simp only [step, if_true]
    rw [settle_status]
  · simp only [step, if_true]
    rw [settle_outcomes_pending]
    rfl
  · intro code hcode
    constructor
    · simp only [step]
      rw [if_pos (Or.inl trivial)]
      exact onDisconnected_error_of_abnormal_code _ _ hcode
    · simp only [step]
      rw [if_pos (Or.inl trivial), onDisconnected_outcomes, settle_outcomes_pending]
      rfl

theorem C5_amended_connect_contract_witness :
    connectGuard initialState = false ∧
    (step (connectFn initialState) Event.timeoutFire).status = WebSocketStatus.connecting ∧
    (step (connectFn initialState) (Event.failEvt 1006)).status = WebSocketStatus.error := by
  have h := C5_amended_connect_contract initialState rfl
  exact ⟨rfl, h.2.2.2.2.2.2.2.1, (h.2.2.2.2.2.2.2.2.2 1006 (by decide)).1⟩

theorem C9_connect_idempotent_while_connecting_or_connected_witness :
    ((run initialState [Event.connectCall]).status = WebSocketStatus.connecting ∨
      (run initialState [Event.connectCall]).status = WebSocketStatus.connected) ∧
    connectFn (run initialState [Event.connectCall]) = run initialState [Event.connectCall] :=
  ⟨Or.inl rfl,
    C9_connect_idempotent_while_connecting_or_connected [Event.connectCall] (Or.inl rfl)⟩

end BuddyWs
